import Mathlib

/-!
Verification of the curve-lookup, overlay and marker logic of
`dataset_gui.py` (QISS-HZB/ambiguous-resonances-dataset).

The computational core of the program lives in `load_data` (canonical axes),
`update_plot_N` and `update_plot_C` (table lookup, experimental overlay,
marker positions).  Real numbers of the Python program are embedded as `ℚ`;
the uncaught exceptions that NumPy raises on malformed overlay files, empty
arrays or unbound loop variables are modelled by an `aborted` flag on the
render result.
-/

namespace DatasetGui

/-- DataFormatError: the overlay file cannot be parsed as two delimited
numeric columns (`np.loadtxt` raises). -/
inductive DataFormatError where
  | malformed
deriving DecidableEq

/-- unit_list from lines 621 and 742 of the source: the four magnitude
multipliers `[1e3, 1, 1e-3, 1e-6]` indexed by the checked unit button. -/
def unit_list : List ℚ := [1000, 1, 1/1000, 1/1000000]

/-- np.linspace(a, b, n): n evenly spaced points from a to b inclusive. -/
def linspace (a b : ℚ) (n : ℕ) : List ℚ :=
  (List.range n).map (fun i : ℕ => a + (b - a) * (i : ℚ) / ((n : ℚ) - 1))

/-- tau, line 480: `self.tau = np.linspace(0.05, 3, 1000)` (microseconds). -/
def tau : List ℚ := linspace (1/20) 3 1000

/-- freq, line 481: `self.freq = 1 / 2 / self.tau` (megahertz). -/
def freq : List ℚ := tau.map (fun t => 1 / 2 / t)

/-- time_to_freq: the time-domain to frequency-domain transformation
`1 / 2 / x` applied by the source at lines 481 and 683/808. -/
def time_to_freq (t : ℚ) : ℚ := 1 / 2 / t

/-- freq_to_time: the inverse transformation, the same formula `1 / 2 / x`
(the transformation is an involution in the source). -/
def freq_to_time (f : ℚ) : ℚ := 1 / 2 / f

/-- x_axis, lines 642-646 and 769-773: frequency domain divides `freq` by
the selected multiplier, time domain multiplies `tau` by it. -/
def x_axis (freqDomain : Bool) (u : ℕ) : List ℚ :=
  if freqDomain then freq.map (fun f => f / unit_list.getD u 0)
  else tau.map (fun t => t * unit_list.getD u 0)

/-- min of a nonempty list, as Python `min` / `np.min`; junk value 0 on []
(Python raises there; every use site guards nonemptiness). -/
def minList : List ℚ → ℚ
  | [] => 0
  | h :: t => t.foldl min h

/-- max of a nonempty list, as `np.max`; junk value 0 on []. -/
def maxList : List ℚ → ℚ
  | [] => 0
  | h :: t => t.foldl max h

/-- The marker position of `update_plot_N`, lines 679-683:
`pos = 1 / (2 * gamma / unit * B0 * 1e-3)`, replaced by `1 / 2 / pos`
when the frequency radio button is checked. -/
def marker_pos_N (gamma unit B0 : ℚ) (isFreq : Bool) : ℚ :=
  let pos := 1 / (2 * gamma / unit * B0 * (1/1000))
  if isFreq then 1 / 2 / pos else pos

/-- The marker position of `update_plot_C`, lines 804-808: textually the
same computation as in `update_plot_N`, duplicated in the source. -/
def marker_pos_C (gamma unit B0 : ℚ) (isFreq : Bool) : ℚ :=
  let pos := 1 / (2 * gamma / unit * B0 * (1/1000))
  if isFreq then 1 / 2 / pos else pos

/-- One row of the N15 table (columns ms, order, field, field_angle, data). -/
structure N15Row where
  ms : Int
  order : Int
  field : ℚ
  field_angle : ℚ
  data : List ℚ

/-- One row of the C13 table (columns ms, order, field, fam, data). -/
structure C13Row where
  ms : Int
  order : Int
  field : ℚ
  fam : String
  data : List ℚ

/-- read_where on the N15 table, line 616-618: exact equality on
order, field, field_angle and ms. -/
def readWhereN (table : List N15Row) (order : Int) (field : ℚ)
    (angle : ℚ) (ms : Int) : List N15Row :=
  table.filter (fun r =>
    decide (r.order = order ∧ r.field = field ∧ r.field_angle = angle ∧ r.ms = ms))

/-- read_where on the C13 table, lines 754-756: exact equality on
order, fam, field and ms. -/
def readWhereC (table : List C13Row) (order : Int) (fam : String)
    (field : ℚ) (ms : Int) : List C13Row :=
  table.filter (fun r =>
    decide (r.order = order ∧ r.fam = fam ∧ r.field = field ∧ r.ms = ms))

/-- One drawing primitive emitted onto the axes by an update function. -/
inductive RenderItem where
  | simCurve (label : String) (x y : List ℚ)
  | noDataText
  | expCurve (x y : List ℚ)
  | marker (label : String) (pos : ℚ)

/-- The observable outcome of one call to an update function: the items
drawn in order, whether the zero-field message box was shown, and whether
an uncaught exception aborted the method. -/
structure Render where
  items : List RenderItem
  b0Error : Bool
  aborted : Bool

/-- Inputs read from the widgets by `update_plot_N`.  `exptFile` models the
selected file: `none` when no filename is set, otherwise the result of
parsing it as two tab-delimited numeric columns. -/
structure NInputs where
  table : List N15Row
  gyro : String → ℚ
  ms : Int
  M : Int
  B0 : ℚ
  theta : ℚ
  selGyro : List String
  unitId : ℕ
  freqDomain : Bool
  exptEnabled : Bool
  exptFile : Option (Except DataFormatError (List (ℚ × ℚ)))

/-- Inputs read from the widgets by `update_plot_C`. -/
structure CInputs where
  table : List C13Row
  gyro : String → ℚ
  ms : Int
  M : Int
  B0 : ℚ
  selGyro : List String
  unitId : ℕ
  freqDomain : Bool
  selFam : List String
  exptEnabled : Bool
  exptFile : Option (Except DataFormatError (List (ℚ × ℚ)))

/-- Lines 616-641 of `update_plot_N`: the looked-up probability series,
`XY8["data"][0]` of the first matching row, or `none` when no row matches. -/
def n_lookup (i : NInputs) : Option (List ℚ) :=
  match readWhereN i.table i.M i.B0 i.theta i.ms with
  | [] => none
  | r :: _ => some r.data

/-- Lines 630-654: the no-data placeholder text, or the simulated curve
plotted against the unit-scaled axis. -/
def n_curve_items (i : NInputs) : List RenderItem :=
  match n_lookup i with
  | none => [.noDataText]
  | some d => [.simCurve "Sim" (x_axis i.freqDomain i.unitId) d]

/-- Lines 675-691: one dashed vertical line per selected isotope label when
the field is nonzero; nothing otherwise. -/
def n_marker_items (i : NInputs) : List RenderItem :=
  if i.B0 ≠ 0 then
    i.selGyro.map (fun v =>
      .marker v (marker_pos_N (i.gyro v) (unit_list.getD i.unitId 0) i.B0 i.freqDomain))
  else []

/-- Lines 692-696: the message box shown when the field is zero and at
least one isotope label is selected. -/
def n_b0_error (i : NInputs) : Bool :=
  decide (i.B0 = 0) && !i.selGyro.isEmpty

/-- Outcome of the experimental-overlay block (lines 657-669 / 782-794). -/
inductive OverlayOut where
  | skipped
  | aborted
  | curve (xs ys : List ℚ)

/-- Lines 660 and 664 (and 785, 789): baseline correction
`p = y - min(y)` followed by rescaling `p * refMax / max(p)`. -/
def baseline_rescale (ys : List ℚ) (refMax : ℚ) : List ℚ :=
  let p := ys.map (fun y => y - minList ys)
  p.map (fun v => v * refMax / maxList p)

/-- The overlay block, lines 657-669 and 782-794: skipped unless the
checkbox is ticked and a filename is set; `np.loadtxt` failure, an empty
data array, or an unavailable `np.max(XY8)` reference raise and abort the
method; otherwise the baseline-corrected rescaled scatter is drawn against
the raw first column. -/
def overlay_step (enabled : Bool)
    (file : Option (Except DataFormatError (List (ℚ × ℚ))))
    (refMax : Option ℚ) : OverlayOut :=
  match enabled, file with
  | true, some (.error _) => .aborted
  | true, some (.ok rows) =>
    if rows = [] then .aborted
    else
      match refMax with
      | none => .aborted
      | some m => .curve (rows.map Prod.fst) (baseline_rescale (rows.map Prod.snd) m)
  | _, _ => .skipped

/-- update_plot_N, lines 599-723: curve lookup, then the overlay block
(whose exceptions abort the method before any marker is drawn), then the
marker block.  Axis labelling and canvas drawing are presentation only. -/
def update_plot_N (i : NInputs) : Render :=
  match overlay_step i.exptEnabled i.exptFile ((n_lookup i).map maxList) with
  | .aborted => ⟨n_curve_items i, false, true⟩
  | .skipped => ⟨n_curve_items i ++ n_marker_items i, n_b0_error i, false⟩
  | .curve xs ys =>
    ⟨n_curve_items i ++ [.expCurve xs ys] ++ n_marker_items i, n_b0_error i, false⟩

/-- One iteration of the family loop of `update_plot_C`, lines 753-780.
The second component tracks the Python local `XY8` after the iteration:
`some none` when the query matched nothing (the loop variable holds the
empty query result), `some (some d)` when it holds the found series. -/
def c_step (j : CInputs) (acc : List RenderItem × Option (Option (List ℚ)))
    (fam : String) : List RenderItem × Option (Option (List ℚ)) :=
  match readWhereC j.table j.M fam j.B0 j.ms with
  | [] => (acc.1 ++ [.noDataText], some none)
  | r :: _ =>
    (acc.1 ++ [.simCurve fam (x_axis j.freqDomain j.unitId) r.data], some (some r.data))

/-- The family loop of `update_plot_C`: items drawn per family in selection
order, and the final state of the loop variable `XY8` (`none` when the
loop never ran and the variable is unbound). -/
def c_loop (j : CInputs) : List RenderItem × Option (Option (List ℚ)) :=
  j.selFam.foldl (c_step j) ([], none)

/-- `np.max(XY8)` after the family loop (line 789): unavailable (raises)
when the loop variable is unbound or holds an empty query result. -/
def c_refMax : Option (Option (List ℚ)) → Option ℚ
  | none => none
  | some none => none
  | some (some d) => some (maxList d)

/-- Lines 800-816 of `update_plot_C`: the marker block, a verbatim
duplicate of the one in `update_plot_N`. -/
def c_marker_items (j : CInputs) : List RenderItem :=
  if j.B0 ≠ 0 then
    j.selGyro.map (fun v =>
      .marker v (marker_pos_C (j.gyro v) (unit_list.getD j.unitId 0) j.B0 j.freqDomain))
  else []

/-- Lines 817-821: the zero-field message box of `update_plot_C`. -/
def c_b0_error (j : CInputs) : Bool :=
  decide (j.B0 = 0) && !j.selGyro.isEmpty

/-- update_plot_C, lines 725-848: the per-family lookup loop, then the
overlay block (which references the leftover loop variable `XY8`), then
the marker block. -/
def update_plot_C (j : CInputs) : Render :=
  match overlay_step j.exptEnabled j.exptFile (c_refMax (c_loop j).2) with
  | .aborted => ⟨(c_loop j).1, false, true⟩
  | .skipped => ⟨(c_loop j).1 ++ c_marker_items j, c_b0_error j, false⟩
  | .curve xs ys =>
    ⟨(c_loop j).1 ++ [.expCurve xs ys] ++ c_marker_items j, c_b0_error j, false⟩

/-- Is the item a simulated-curve item (curve or no-data placeholder)? -/
def isSim : RenderItem → Bool
  | .simCurve _ _ _ => true
  | .noDataText => true
  | _ => false

/-- Extract a marker item. -/
def markerOfItem : RenderItem → Option (String × ℚ)
  | .marker l p => some (l, p)
  | _ => none

/-- The markers of a render, in drawing order. -/
def markersOf (r : Render) : List (String × ℚ) :=
  r.items.filterMap markerOfItem

/-- The simulated-curve portion of a render (curves and placeholders). -/
def simsOf (r : Render) : List RenderItem :=
  r.items.filter isSim

/-- Extract an experimental-overlay item's y series. -/
def expOfItem : RenderItem → Option (List ℚ)
  | .expCurve _ ys => some ys
  | _ => none

/-- The y series of the experimental scatter of a render, when drawn. -/
def expYsOf (r : Render) : Option (List ℚ) :=
  (r.items.filterMap expOfItem).head?

/-! ### Helper lemmas on folds, min/max and item classification -/

lemma foldl_max_sub (t : List ℚ) :
    ∀ a c : ℚ, ((t.map (fun y => y - c)).foldl max (a - c)) = t.foldl max a - c := by
  induction t with
  | nil => intro a c; rfl
  | cons b t ih =>
    intro a c
    simp only [List.map_cons, List.foldl_cons]
    rw [max_sub_sub_right a b c]
    exact ih (max a b) c

lemma foldl_min_sub (t : List ℚ) :
    ∀ a c : ℚ, ((t.map (fun y => y - c)).foldl min (a - c)) = t.foldl min a - c := by
  induction t with
  | nil => intro a c; rfl
  | cons b t ih =>
    intro a c
    simp only [List.map_cons, List.foldl_cons]
    rw [min_sub_sub_right a b c]
    exact ih (min a b) c

lemma max_mul_nn (a b c : ℚ) (hc : 0 ≤ c) : max (a * c) (b * c) = max a b * c := by
  rcases le_total a b with h | h
  · rw [max_eq_right h, max_eq_right (mul_le_mul_of_nonneg_right h hc)]
  · rw [max_eq_left h, max_eq_left (mul_le_mul_of_nonneg_right h hc)]

lemma min_mul_nn (a b c : ℚ) (hc : 0 ≤ c) : min (a * c) (b * c) = min a b * c := by
  rcases le_total a b with h | h
  · rw [min_eq_left h, min_eq_left (mul_le_mul_of_nonneg_right h hc)]
  · rw [min_eq_right h, min_eq_right (mul_le_mul_of_nonneg_right h hc)]

lemma foldl_max_mul (t : List ℚ) (c : ℚ) (hc : 0 ≤ c) :
    ∀ a : ℚ, ((t.map (fun y => y * c)).foldl max (a * c)) = t.foldl max a * c := by
  induction t with
  | nil => intro a; rfl
  | cons b t ih =>
    intro a
    simp only [List.map_cons, List.foldl_cons]
    rw [max_mul_nn a b c hc]
    exact ih (max a b)

lemma foldl_min_mul (t : List ℚ) (c : ℚ) (hc : 0 ≤ c) :
    ∀ a : ℚ, ((t.map (fun y => y * c)).foldl min (a * c)) = t.foldl min a * c := by
  induction t with
  | nil => intro a; rfl
  | cons b t ih =>
    intro a
    simp only [List.map_cons, List.foldl_cons]
    rw [min_mul_nn a b c hc]
    exact ih (min a b)

lemma maxList_map_sub (l : List ℚ) (c : ℚ) (h : l ≠ []) :
    maxList (l.map (fun y => y - c)) = maxList l - c := by
  cases l with
  | nil => exact absurd rfl h
  | cons a t => simpa [maxList] using foldl_max_sub t a c

lemma minList_map_sub (l : List ℚ) (c : ℚ) (h : l ≠ []) :
    minList (l.map (fun y => y - c)) = minList l - c := by
  cases l with
  | nil => exact absurd rfl h
  | cons a t => simpa [minList] using foldl_min_sub t a c

lemma maxList_map_mul (l : List ℚ) (c : ℚ) (hc : 0 ≤ c) (h : l ≠ []) :
    maxList (l.map (fun y => y * c)) = maxList l * c := by
  cases l with
  | nil => exact absurd rfl h
  | cons a t => simpa [maxList] using foldl_max_mul t c hc a

lemma minList_map_mul (l : List ℚ) (c : ℚ) (hc : 0 ≤ c) (h : l ≠ []) :
    minList (l.map (fun y => y * c)) = minList l * c := by
  cases l with
  | nil => exact absurd rfl h
  | cons a t => simpa [minList] using foldl_min_mul t c hc a

lemma foldl_min_mem (t : List α) [LinearOrder α] :
    ∀ a : α, t.foldl min a = a ∨ t.foldl min a ∈ t := by
  induction t with
  | nil => intro a; exact Or.inl rfl
  | cons b t ih =>
    intro a
    simp only [List.foldl_cons]
    rcases ih (min a b) with h | h
    · rcases le_total a b with hab | hab
      · exact Or.inl (h.trans (min_eq_left hab))
      · exact Or.inr (by rw [h.trans (min_eq_right hab)]; exact List.mem_cons_self b t)
    · exact Or.inr (List.mem_cons_of_mem b h)

lemma minList_mem (l : List ℚ) (h : l ≠ []) : minList l ∈ l := by
  cases l with
  | nil => exact absurd rfl h
  | cons a t =>
    rcases foldl_min_mem t a with h' | h'
    · rw [minList, h']; exact List.mem_cons_self a t
    · rw [minList]; exact List.mem_cons_of_mem a h'

lemma sim_marker_none (it : RenderItem) (h : isSim it = true) : markerOfItem it = none := by
  cases it <;> simp_all [isSim, markerOfItem]

lemma sim_exp_none (it : RenderItem) (h : isSim it = true) : expOfItem it = none := by
  cases it <;> simp_all [isSim, expOfItem]

lemma n_curve_items_sim (i : NInputs) : ∀ it ∈ n_curve_items i, isSim it = true := by
  intro it hit
  unfold n_curve_items at hit
  rcases hl : n_lookup i with _ | d <;> rw [hl] at hit <;>
    simp only [List.mem_singleton] at hit <;> rw [hit] <;> rfl

lemma c_loop_aux_sim (j : CInputs) (fams : List String) :
    ∀ acc : List RenderItem × Option (Option (List ℚ)),
      (∀ it ∈ acc.1, isSim it = true) →
      ∀ it ∈ (fams.foldl (c_step j) acc).1, isSim it = true := by
  induction fams with
  | nil => intro acc h; exact h
  | cons f t ih =>
    intro acc h
    simp only [List.foldl_cons]
    apply ih
    intro it hit
    unfold c_step at hit
    rcases hq : readWhereC j.table j.M f j.B0 j.ms with _ | ⟨r, t'⟩ <;>
      rw [hq] at hit <;> simp only [List.mem_append, List.mem_singleton] at hit <;>
      rcases hit with hit | hit
    · exact h it hit
    · rw [hit]; rfl
    · exact h it hit
    · rw [hit]; rfl

lemma c_loop_sim (j : CInputs) : ∀ it ∈ (c_loop j).1, isSim it = true :=
  c_loop_aux_sim j j.selFam ([], none) (by intro it hit; simp at hit)

lemma filterMap_marker_of_sim (l : List RenderItem) (h : ∀ it ∈ l, isSim it = true) :
    l.filterMap markerOfItem = [] :=
  List.filterMap_eq_nil_iff.mpr (fun it hit => sim_marker_none it (h it hit))

lemma filterMap_exp_of_sim (l : List RenderItem) (h : ∀ it ∈ l, isSim it = true) :
    l.filterMap expOfItem = [] :=
  List.filterMap_eq_nil_iff.mpr (fun it hit => sim_exp_none it (h it hit))

lemma filter_sim_of_sim (l : List RenderItem) (h : ∀ it ∈ l, isSim it = true) :
    l.filter isSim = l :=
  List.filter_eq_self.mpr h

lemma filterMap_marker_map (f : String → ℚ) (l : List String) :
    (l.map (fun v => RenderItem.marker v (f v))).filterMap markerOfItem
      = l.map (fun v => (v, f v)) := by
  induction l with
  | nil => rfl
  | cons a t ih => simp [ih, markerOfItem]

lemma filterMap_exp_marker_map (f : String → ℚ) (l : List String) :
    (l.map (fun v => RenderItem.marker v (f v))).filterMap expOfItem = [] := by
  induction l with
  | nil => rfl
  | cons a t ih => simp [ih, expOfItem]

lemma filter_sim_marker_map (f : String → ℚ) (l : List String) :
    (l.map (fun v => RenderItem.marker v (f v))).filter isSim = [] := by
  induction l with
  | nil => rfl
  | cons a t ih => simp [ih, isSim]

lemma n_marker_filterMap (i : NInputs) :
    (n_marker_items i).filterMap markerOfItem
      = if i.B0 ≠ 0 then
          i.selGyro.map (fun v =>
            (v, marker_pos_N (i.gyro v) (unit_list.getD i.unitId 0) i.B0 i.freqDomain))
        else [] := by
  unfold n_marker_items
  split
  · exact filterMap_marker_map _ _
  · rfl

lemma c_marker_filterMap (j : CInputs) :
    (c_marker_items j).filterMap markerOfItem
      = if j.B0 ≠ 0 then
          j.selGyro.map (fun v =>
            (v, marker_pos_C (j.gyro v) (unit_list.getD j.unitId 0) j.B0 j.freqDomain))
        else [] := by
  unfold c_marker_items
  split
  · exact filterMap_marker_map _ _
  · rfl

lemma n_marker_filterMap_exp (i : NInputs) :
    (n_marker_items i).filterMap expOfItem = [] := by
  unfold n_marker_items
  split
  · exact filterMap_exp_marker_map _ _
  · rfl

lemma c_marker_filterMap_exp (j : CInputs) :
    (c_marker_items j).filterMap expOfItem = [] := by
  unfold c_marker_items
  split
  · exact filterMap_exp_marker_map _ _
  · rfl

lemma n_marker_filter_sim (i : NInputs) : (n_marker_items i).filter isSim = [] := by
  unfold n_marker_items
  split
  · exact filter_sim_marker_map _ _
  · rfl

lemma c_marker_filter_sim (j : CInputs) : (c_marker_items j).filter isSim = [] := by
  unfold c_marker_items
  split
  · exact filter_sim_marker_map _ _
  · rfl

/-! ### Characterisation of the update functions by overlay outcome -/

lemma update_N_of_overlay_aborted (i : NInputs)
    (h : overlay_step i.exptEnabled i.exptFile ((n_lookup i).map maxList) = .aborted) :
    update_plot_N i = ⟨n_curve_items i, false, true⟩ := by
  unfold update_plot_N; rw [h]

lemma update_N_of_overlay_skipped (i : NInputs)
    (h : overlay_step i.exptEnabled i.exptFile ((n_lookup i).map maxList) = .skipped) :
    update_plot_N i = ⟨n_curve_items i ++ n_marker_items i, n_b0_error i, false⟩ := by
  unfold update_plot_N; rw [h]

lemma update_N_of_overlay_curve (i : NInputs) (xs ys : List ℚ)
    (h : overlay_step i.exptEnabled i.exptFile ((n_lookup i).map maxList) = .curve xs ys) :
    update_plot_N i
      = ⟨n_curve_items i ++ [.expCurve xs ys] ++ n_marker_items i, n_b0_error i, false⟩ := by
  unfold update_plot_N; rw [h]

lemma update_C_of_overlay_aborted (j : CInputs)
    (h : overlay_step j.exptEnabled j.exptFile (c_refMax (c_loop j).2) = .aborted) :
    update_plot_C j = ⟨(c_loop j).1, false, true⟩ := by
  unfold update_plot_C; rw [h]

lemma update_C_of_overlay_skipped (j : CInputs)
    (h : overlay_step j.exptEnabled j.exptFile (c_refMax (c_loop j).2) = .skipped) :
    update_plot_C j = ⟨(c_loop j).1 ++ c_marker_items j, c_b0_error j, false⟩ := by
  unfold update_plot_C; rw [h]

lemma update_C_of_overlay_curve (j : CInputs) (xs ys : List ℚ)
    (h : overlay_step j.exptEnabled j.exptFile (c_refMax (c_loop j).2) = .curve xs ys) :
    update_plot_C j
      = ⟨(c_loop j).1 ++ [.expCurve xs ys] ++ c_marker_items j, c_b0_error j, false⟩ := by
  unfold update_plot_C; rw [h]

lemma markersOf_update_N (i : NInputs) (h : (update_plot_N i).aborted = false) :
    markersOf (update_plot_N i)
      = if i.B0 ≠ 0 then
          i.selGyro.map (fun v =>
            (v, marker_pos_N (i.gyro v) (unit_list.getD i.unitId 0) i.B0 i.freqDomain))
        else [] := by
  rcases hov : overlay_step i.exptEnabled i.exptFile ((n_lookup i).map maxList) with _ | _ | ⟨xs, ys⟩
  · rw [update_N_of_overlay_skipped i hov]
    unfold markersOf
    rw [List.filterMap_append,
      filterMap_marker_of_sim _ (n_curve_items_sim i), n_marker_filterMap]
    simp
  · rw [update_N_of_overlay_aborted i hov] at h; exact absurd h (by simp)
  · rw [update_N_of_overlay_curve i xs ys hov]
    unfold markersOf
    rw [List.filterMap_append, List.filterMap_append,
      filterMap_marker_of_sim _ (n_curve_items_sim i), n_marker_filterMap]
    simp [markerOfItem]

lemma markersOf_update_C (j : CInputs) (h : (update_plot_C j).aborted = false) :
    markersOf (update_plot_C j)
      = if j.B0 ≠ 0 then
          j.selGyro.map (fun v =>
            (v, marker_pos_C (j.gyro v) (unit_list.getD j.unitId 0) j.B0 j.freqDomain))
        else [] := by
  rcases hov : overlay_step j.exptEnabled j.exptFile (c_refMax (c_loop j).2) with _ | _ | ⟨xs, ys⟩
  · rw [update_C_of_overlay_skipped j hov]
    unfold markersOf
    rw [List.filterMap_append,
      filterMap_marker_of_sim _ (c_loop_sim j), c_marker_filterMap]
    simp
  · rw [update_C_of_overlay_aborted j hov] at h; exact absurd h (by simp)
  · rw [update_C_of_overlay_curve j xs ys hov]
    unfold markersOf
    rw [List.filterMap_append, List.filterMap_append,
      filterMap_marker_of_sim _ (c_loop_sim j), c_marker_filterMap]
    simp [markerOfItem]

lemma b0Error_update_N (i : NInputs) (h : (update_plot_N i).aborted = false) :
    (update_plot_N i).b0Error = (decide (i.B0 = 0) && !i.selGyro.isEmpty) := by
  rcases hov : overlay_step i.exptEnabled i.exptFile ((n_lookup i).map maxList) with _ | _ | ⟨xs, ys⟩
  · rw [update_N_of_overlay_skipped i hov]; rfl
  · rw [update_N_of_overlay_aborted i hov] at h; exact absurd h (by simp)
  · rw [update_N_of_overlay_curve i xs ys hov]; rfl

lemma b0Error_update_C (j : CInputs) (h : (update_plot_C j).aborted = false) :
    (update_plot_C j).b0Error = (decide (j.B0 = 0) && !j.selGyro.isEmpty) := by
  rcases hov : overlay_step j.exptEnabled j.exptFile (c_refMax (c_loop j).2) with _ | _ | ⟨xs, ys⟩
  · rw [update_C_of_overlay_skipped j hov]; rfl
  · rw [update_C_of_overlay_aborted j hov] at h; exact absurd h (by simp)
  · rw [update_C_of_overlay_curve j xs ys hov]; rfl

lemma simsOf_update_N (i : NInputs) : simsOf (update_plot_N i) = n_curve_items i := by
  rcases hov : overlay_step i.exptEnabled i.exptFile ((n_lookup i).map maxList) with _ | _ | ⟨xs, ys⟩
  · rw [update_N_of_overlay_skipped i hov]
    unfold simsOf
    rw [List.filter_append, filter_sim_of_sim _ (n_curve_items_sim i), n_marker_filter_sim]
    simp
  · rw [update_N_of_overlay_aborted i hov]
    unfold simsOf
    exact filter_sim_of_sim _ (n_curve_items_sim i)
  · rw [update_N_of_overlay_curve i xs ys hov]
    unfold simsOf
    rw [List.filter_append, List.filter_append,
      filter_sim_of_sim _ (n_curve_items_sim i), n_marker_filter_sim]
    simp [isSim]

lemma simsOf_update_C (j : CInputs) : simsOf (update_plot_C j) = (c_loop j).1 := by
  rcases hov : overlay_step j.exptEnabled j.exptFile (c_refMax (c_loop j).2) with _ | _ | ⟨xs, ys⟩
  · rw [update_C_of_overlay_skipped j hov]
    unfold simsOf
    rw [List.filter_append, filter_sim_of_sim _ (c_loop_sim j), c_marker_filter_sim]
    simp
  · rw [update_C_of_overlay_aborted j hov]
    unfold simsOf
    exact filter_sim_of_sim _ (c_loop_sim j)
  · rw [update_C_of_overlay_curve j xs ys hov]
    unfold simsOf
    rw [List.filter_append, List.filter_append,
      filter_sim_of_sim _ (c_loop_sim j), c_marker_filter_sim]
    simp [isSim]

lemma expYsOf_update_N (i : NInputs) (xs ys : List ℚ)
    (h : overlay_step i.exptEnabled i.exptFile ((n_lookup i).map maxList) = .curve xs ys) :
    expYsOf (update_plot_N i) = some ys := by
  rw [update_N_of_overlay_curve i xs ys h]
  unfold expYsOf
  rw [List.filterMap_append, List.filterMap_append,
    filterMap_exp_of_sim _ (n_curve_items_sim i), n_marker_filterMap_exp]
  simp [expOfItem]

lemma expYsOf_update_C (j : CInputs) (xs ys : List ℚ)
    (h : overlay_step j.exptEnabled j.exptFile (c_refMax (c_loop j).2) = .curve xs ys) :
    expYsOf (update_plot_C j) = some ys := by
  rw [update_C_of_overlay_curve j xs ys h]
  unfold expYsOf
  rw [List.filterMap_append, List.filterMap_append,
    filterMap_exp_of_sim _ (c_loop_sim j), c_marker_filterMap_exp]
  simp [expOfItem]

lemma overlay_step_curve_eq (file : Option (Except DataFormatError (List (ℚ × ℚ))))
    (rows : List (ℚ × ℚ)) (m : ℚ)
    (hF : file = some (.ok rows)) (hne : rows ≠ []) :
    overlay_step true file (some m)
      = .curve (rows.map Prod.fst) (baseline_rescale (rows.map Prod.snd) m) := by
  subst hF
  unfold overlay_step
  simp [hne]

lemma overlay_step_error (file : Option (Except DataFormatError (List (ℚ × ℚ))))
    (e : DataFormatError) (refMax : Option ℚ) (hF : file = some (.error e)) :
    overlay_step true file refMax = .aborted := by
  subst hF; rfl

lemma foldl_max_mem (t : List α) [LinearOrder α] :
    ∀ a : α, t.foldl max a = a ∨ t.foldl max a ∈ t := by
  induction t with
  | nil => intro a; exact Or.inl rfl
  | cons b t ih =>
    intro a
    simp only [List.foldl_cons]
    rcases ih (max a b) with h | h
    · rcases le_total a b with hab | hab
      · exact Or.inr (by rw [h.trans (max_eq_right hab)]; exact List.mem_cons_self b t)
      · exact Or.inl (h.trans (max_eq_left hab))
    · exact Or.inr (List.mem_cons_of_mem b h)

lemma maxList_mem (l : List ℚ) (h : l ≠ []) : maxList l ∈ l := by
  cases l with
  | nil => exact absurd rfl h
  | cons a t =>
    rcases foldl_max_mem t a with h' | h'
    · rw [maxList, h']; exact List.mem_cons_self a t
    · rw [maxList]; exact List.mem_cons_of_mem a h'

lemma tau_length : tau.length = 1000 := by
  unfold tau linspace
  rw [List.length_map, List.length_range]

lemma tau_getD (i : ℕ) (h : i < 1000) :
    tau.getD i 0 = 1/20 + (3 - 1/20) * i / 999 := by
  unfold tau linspace
  rw [List.getD_eq_getElem?_getD, List.getElem?_map, List.getElem?_range h]
  norm_num

/-! ### Concrete inputs used by witnesses and counterexamples -/

/-- An N15 table row matching ms=-1, order 8, field 5 mT, angle 0. -/
def n_row_ref : N15Row := ⟨-1, 8, 5, 0, [2]⟩

/-- A C13 table row for family "A". -/
def c_rowA : C13Row := ⟨-1, 8, 5, "A", [1, 2]⟩

/-- A C13 table row for family "B". -/
def c_rowB : C13Row := ⟨-1, 8, 5, "B", [3, 4]⟩

/-- A constant gyromagnetic-ratio mapping. -/
def gyro30 : String → ℚ := fun _ => 30

def i_c2 : NInputs := ⟨[n_row_ref], gyro30, -1, 8, 0, 0, ["H"], 1, false, false, none⟩

def j_c2 : CInputs := ⟨[c_rowA], gyro30, -1, 8, 0, ["H"], 1, false, ["A"], false, none⟩

def i_c3 : NInputs :=
  ⟨[n_row_ref], gyro30, -1, 8, 5, 0, [], 1, false, true, some (.ok [(1, 6), (2, 8)])⟩

def j_c3 : CInputs :=
  ⟨[c_rowA, c_rowB], gyro30, -1, 8, 5, [], 1, false, ["A", "B"], true,
    some (.ok [(1, 5), (2, 7)])⟩

def i_c4 : NInputs :=
  ⟨[n_row_ref], gyro30, -1, 8, 5, 0, [], 1, false, true, some (.ok [(1, 5), (2, 5)])⟩

def i_c5 : NInputs :=
  ⟨[n_row_ref], gyro30, -1, 8, 5, 0, ["H"], 1, false, true, some (.error .malformed)⟩

def i_c5b : NInputs :=
  ⟨[n_row_ref], gyro30, -1, 8, 5, 0, ["H"], 1, false, false, some (.error .malformed)⟩

def j_c5 : CInputs :=
  ⟨[c_rowA], gyro30, -1, 8, 5, [], 1, false, ["A"], true, some (.error .malformed)⟩

def j_c6 : CInputs := ⟨[c_rowA], gyro30, -1, 8, 5, [], 1, false, ["A", "B"], false, none⟩

def i_c9 : NInputs := ⟨[n_row_ref], gyro30, -1, 8, 5, 0, ["H"], 1, false, false, none⟩

def j_c9 : CInputs := ⟨[c_rowA], gyro30, -1, 8, 5, ["H"], 1, false, ["A"], false, none⟩

def i_c10 : NInputs :=
  ⟨[n_row_ref], gyro30, -1, 8, 5, 0, [], 1, false, true, some (.ok [(1, 5), (2, 5)])⟩

/-! ### The claims -/

/-- C1: for every selected isotope label with gyromagnetic ratio γ (MHz/T),
field strength B0 ≠ 0 (mT) and unit index u into {1e3, 1, 1e-3, 1e-6}, the
time-domain marker position computed by both update functions equals
`1 / (2 · (γ / multiplier[u]) · B0 · 1e-3)`, and the frequency-domain
position is `1 / (2 · tau)` of the time-domain value. -/
theorem C1_marker_position (γ B0 : ℚ) (u : ℕ) (hu : u < 4) (hB : B0 ≠ 0) :
    marker_pos_N γ (unit_list.getD u 0) B0 false
      = 1 / (2 * (γ / unit_list.getD u 0) * B0 * (1/1000))
    ∧ marker_pos_C γ (unit_list.getD u 0) B0 false
      = 1 / (2 * (γ / unit_list.getD u 0) * B0 * (1/1000))
    ∧ marker_pos_N γ (unit_list.getD u 0) B0 true
      = 1 / (2 * marker_pos_N γ (unit_list.getD u 0) B0 false)
    ∧ marker_pos_C γ (unit_list.getD u 0) B0 true
      = 1 / (2 * marker_pos_C γ (unit_list.getD u 0) B0 false) := by
  refine ⟨?_, ?_, ?_, ?_⟩
  · show (1 : ℚ) / (2 * γ / unit_list.getD u 0 * B0 * (1/1000))
        = 1 / (2 * (γ / unit_list.getD u 0) * B0 * (1/1000))
    rw [mul_div_assoc]
  · show (1 : ℚ) / (2 * γ / unit_list.getD u 0 * B0 * (1/1000))
        = 1 / (2 * (γ / unit_list.getD u 0) * B0 * (1/1000))
    rw [mul_div_assoc]
  · exact div_div 1 2 _
  · exact div_div 1 2 _

/-- Witness for C1 at γ = 30 MHz/T, B0 = 5 mT, unit index 1 (μs/MHz). -/
theorem C1_marker_position_witness :
    marker_pos_N 30 (unit_list.getD 1 0) 5 false
      = 1 / (2 * ((30 : ℚ) / unit_list.getD 1 0) * 5 * (1/1000)) :=
  (C1_marker_position 30 5 1 (by norm_num) (by norm_num)).1

/-- C7: the canonical time axis is exactly 1000 evenly spaced points from
0.05 to 3 μs; the derived frequency axis is f = 1/(2τ) MHz; for unit index
0 in the frequency domain every x value is `1/(2·τ)/1e3`, and in the time
domain the x values are τ times the selected multiplier. -/
theorem C7_canonical_axis :
    tau.length = 1000
    ∧ (∀ i : ℕ, i < 1000 → tau.getD i 0 = 1/20 + (3 - 1/20) * i / 999)
    ∧ (∀ i : ℕ, i + 1 < 1000 → tau.getD (i+1) 0 - tau.getD i 0 = (3 - 1/20) / 999)
    ∧ tau.getD 0 0 = 1/20
    ∧ tau.getD 999 0 = 3
    ∧ freq = tau.map (fun t => 1 / (2 * t))
    ∧ x_axis true 0 = tau.map (fun t => 1 / (2 * t) / 1000)
    ∧ (∀ u : ℕ, u < 4 → x_axis false u = tau.map (fun t => t * unit_list.getD u 0)) := by
  refine ⟨tau_length, tau_getD, ?_, ?_, ?_, ?_, ?_, ?_⟩
  · intro i hi
    rw [tau_getD (i+1) hi, tau_getD i (by omega)]
    push_cast
    ring
  · rw [tau_getD 0 (by norm_num)]; norm_num
  · rw [tau_getD 999 (by norm_num)]; norm_num
  · show tau.map (fun t => 1 / 2 / t) = tau.map (fun t => 1 / (2 * t))
    exact congrArg (fun g => List.map g tau) (funext fun t => div_div 1 2 t)
  · show freq.map (fun f => f / unit_list.getD 0 0) = tau.map (fun t => 1 / (2 * t) / 1000)
    show (tau.map (fun t => 1 / 2 / t)).map (fun f => f / unit_list.getD 0 0)
        = tau.map (fun t => 1 / (2 * t) / 1000)
    rw [List.map_map]
    exact congrArg (fun g => List.map g tau) (funext fun t => by
      show (1 : ℚ) / 2 / t / 1000 = 1 / (2 * t) / 1000
      rw [div_div 1 2 t])
  · intro u hu
    rfl

/-- Witness for C7 at i = 2 for the spacing clause. -/
theorem C7_canonical_axis_witness :
    tau.getD 3 0 - tau.getD 2 0 = ((3 : ℚ) - 1/20) / 999 :=
  C7_canonical_axis.2.2.1 2 (by norm_num)

/-- C8: converting a positive frequency to a time as 1/(2·f) and back as
1/(2·tau) returns the original frequency (round-trip identity of the
time↔frequency transformation). -/
theorem C8_round_trip (f : ℚ) (hf : 0 < f) : time_to_freq (freq_to_time f) = f := by
  unfold time_to_freq freq_to_time
  have hf' : f ≠ 0 := ne_of_gt hf
  field_simp

/-- Witness for C8 at f = 3. -/
theorem C8_round_trip_witness : time_to_freq (freq_to_time 3) = 3 :=
  C8_round_trip 3 (by norm_num)

/-- Helper: a constant-y overlay column gives a zero rescale divisor, no
abort, and an all-zero overlay output. -/
lemma overlay_constant_aux (i : NInputs) (rows : List (ℚ × ℚ)) (c : ℚ) (d : List ℚ)
    (hE : i.exptEnabled = true) (hF : i.exptFile = some (.ok rows))
    (hne : rows ≠ []) (hc : ∀ r ∈ rows, r.2 = c) (hlk : n_lookup i = some d) :
    maxList ((rows.map Prod.snd).map (fun y => y - minList (rows.map Prod.snd))) = 0
    ∧ (update_plot_N i).aborted = false
    ∧ expYsOf (update_plot_N i) = some (rows.map (fun _ => (0 : ℚ))) := by
  have hysne : rows.map Prod.snd ≠ [] := by simpa using hne
  have hallc : ∀ y ∈ rows.map Prod.snd, y = c := by
    intro y hy
    rcases List.mem_map.mp hy with ⟨r, hr, rfl⟩
    exact hc r hr
  have hmin : minList (rows.map Prod.snd) = c := hallc _ (minList_mem _ hysne)
  have hmax : maxList (rows.map Prod.snd) = c := hallc _ (maxList_mem _ hysne)
  have hdiv : maxList ((rows.map Prod.snd).map
      (fun y => y - minList (rows.map Prod.snd))) = 0 := by
    rw [maxList_map_sub _ _ hysne, hmax, hmin, sub_self]
  have hzero : baseline_rescale (rows.map Prod.snd) (maxList d)
      = rows.map (fun _ => (0 : ℚ)) := by
    show ((rows.map Prod.snd).map (fun y => y - minList (rows.map Prod.snd))).map
        (fun v => v * maxList d / maxList ((rows.map Prod.snd).map
          (fun y => y - minList (rows.map Prod.snd))))
      = rows.map (fun _ => (0 : ℚ))
    rw [List.map_map, List.map_map]
    apply List.map_congr_left
    intro r hr
    simp only [Function.comp_apply]
    rw [hc r hr, hmin, sub_self, zero_mul, zero_div]
  have hov : overlay_step i.exptEnabled i.exptFile ((n_lookup i).map maxList)
      = .curve (rows.map Prod.fst) (baseline_rescale (rows.map Prod.snd) (maxList d)) := by
    rw [hE, hlk]
    exact overlay_step_curve_eq i.exptFile rows (maxList d) hF hne
  refine ⟨hdiv, ?_, ?_⟩
  · rw [update_N_of_overlay_curve i _ _ hov]
  · rw [expYsOf_update_N i _ _ hov, hzero]


/-- C4 as stated is false: a successfully loaded experimental sequence with
a constant y column (here [5, 5]) against the non-empty reference curve [2]
produces output [0, 0], whose maximum 0 differs from the reference maximum
2 (the code divides by max(p) = 0 with no guard). -/
theorem C4_counterexample :
    expYsOf (update_plot_N i_c4) = some [0, 0]
    ∧ maxList [0, 0] = 0 ∧ maxList (2 :: []) = 2 ∧ ((0 : ℚ) ≠ 2) := by
  have h := overlay_constant_aux i_c4 [(1, 5), (2, 5)] 5 (2 :: [])
    rfl rfl (by decide) (by decide) (by decide)
  refine ⟨?_, rfl, rfl, by norm_num⟩
  simpa using h.2.2

/-- C4 (amended): for every successfully loaded experimental sequence whose
baseline-corrected maximum is positive (the y column is not constant) and
every non-empty reference curve with nonnegative maximum, the overlay
output has min 0 and max equal to the reference maximum. -/
theorem C4_overlay_rescale (ys ref : List ℚ) (hys : ys ≠ []) (href : ref ≠ [])
    (hnc : minList ys < maxList ys) (hR : 0 ≤ maxList ref) :
    minList (baseline_rescale ys (maxList ref)) = 0
    ∧ maxList (baseline_rescale ys (maxList ref)) = maxList ref := by
  have hpne : ys.map (fun y => y - minList ys) ≠ [] := by simpa using hys
  have hP : 0 < maxList (ys.map (fun y => y - minList ys)) := by
    rw [maxList_map_sub ys _ hys]; exact sub_pos.mpr hnc
  have hc : 0 ≤ maxList ref / maxList (ys.map (fun y => y - minList ys)) :=
    div_nonneg hR (le_of_lt hP)
  have hfun : (fun v : ℚ => v * maxList ref / maxList (ys.map (fun y => y - minList ys)))
      = (fun v : ℚ => v * (maxList ref / maxList (ys.map (fun y => y - minList ys)))) :=
    funext fun v => mul_div_assoc v _ _
  constructor
  · show minList ((ys.map (fun y => y - minList ys)).map
        (fun v => v * maxList ref / maxList (ys.map (fun y => y - minList ys)))) = 0
    rw [hfun, minList_map_mul _ _ hc hpne, minList_map_sub ys _ hys, sub_self, zero_mul]
  · show maxList ((ys.map (fun y => y - minList ys)).map
        (fun v => v * maxList ref / maxList (ys.map (fun y => y - minList ys)))) = maxList ref
    rw [hfun, maxList_map_mul _ _ hc hpne, mul_comm, div_mul_cancel₀ _ (ne_of_gt hP)]

/-- Witness for the amended C4 at ys = [5, 7], ref = [2]. -/
theorem C4_overlay_rescale_witness :
    minList (baseline_rescale [5, 7] (maxList (2 :: []))) = 0
    ∧ maxList (baseline_rescale [5, 7] (maxList (2 :: []))) = maxList (2 :: []) :=
  C4_overlay_rescale [5, 7] (2 :: []) (by decide) (by decide) (by norm_num [minList, maxList])
    (by norm_num [maxList])

/-- C10: for every successfully parsed overlay file whose y column is
constant, the baseline-corrected signal has maximum 0 — the divisor of the
rescale step — yet the render completes with no error and an overlay curve
is still produced (all entries the junk value of division by zero, 0 in
this exact-arithmetic embedding, NaN in the floating-point original). -/
theorem C10_constant_overlay (i : NInputs) (rows : List (ℚ × ℚ)) (c : ℚ) (d : List ℚ)
    (hE : i.exptEnabled = true) (hF : i.exptFile = some (.ok rows))
    (hne : rows ≠ []) (hc : ∀ r ∈ rows, r.2 = c) (hlk : n_lookup i = some d) :
    maxList ((rows.map Prod.snd).map (fun y => y - minList (rows.map Prod.snd))) = 0
    ∧ (update_plot_N i).aborted = false
    ∧ expYsOf (update_plot_N i) = some (rows.map (fun _ => (0 : ℚ))) :=
  overlay_constant_aux i rows c d hE hF hne hc hlk

/-- Witness for C10 at the constant overlay file [(1,5), (2,5)]. -/
theorem C10_constant_overlay_witness :
    maxList ((([((1 : ℚ), (5 : ℚ)), (2, 5)]).map Prod.snd).map
        (fun y => y - minList (([((1 : ℚ), (5 : ℚ)), (2, 5)]).map Prod.snd))) = 0
    ∧ (update_plot_N i_c10).aborted = false
    ∧ expYsOf (update_plot_N i_c10)
        = some (([((1 : ℚ), (5 : ℚ)), (2, 5)]).map (fun _ => (0 : ℚ))) :=
  C10_constant_overlay i_c10 [(1, 5), (2, 5)] 5 (2 :: [])
    rfl rfl (by decide) (by decide) (by decide)

/-- C2: in a render that is not aborted by an overlay exception, a zero
field with at least one selected isotope label shows the zero-field error
box and produces no markers while the simulated-curve portion of the
render is exactly the curve stage's output; an empty label selection
produces no error and no markers regardless of field strength. -/
theorem C2_zero_field_markers (i : NInputs) (j : CInputs)
    (hi : (update_plot_N i).aborted = false) (hj : (update_plot_C j).aborted = false) :
    (i.B0 = 0 → i.selGyro ≠ [] →
      (update_plot_N i).b0Error = true ∧ markersOf (update_plot_N i) = []
        ∧ simsOf (update_plot_N i) = n_curve_items i)
    ∧ (i.selGyro = [] →
      (update_plot_N i).b0Error = false ∧ markersOf (update_plot_N i) = [])
    ∧ (j.B0 = 0 → j.selGyro ≠ [] →
      (update_plot_C j).b0Error = true ∧ markersOf (update_plot_C j) = []
        ∧ simsOf (update_plot_C j) = (c_loop j).1)
    ∧ (j.selGyro = [] →
      (update_plot_C j).b0Error = false ∧ markersOf (update_plot_C j) = []) := by
  refine ⟨?_, ?_, ?_, ?_⟩
  · intro hB0 hsel
    refine ⟨?_, ?_, simsOf_update_N i⟩
    · rw [b0Error_update_N i hi]
      simp [hB0, List.isEmpty_iff, hsel]
    · rw [markersOf_update_N i hi]
      simp [hB0]
  · intro hsel
    constructor
    · rw [b0Error_update_N i hi]
      simp [hsel]
    · rw [markersOf_update_N i hi]
      split <;> simp [hsel]
  · intro hB0 hsel
    refine ⟨?_, ?_, simsOf_update_C j⟩
    · rw [b0Error_update_C j hj]
      simp [hB0, List.isEmpty_iff, hsel]
    · rw [markersOf_update_C j hj]
      simp [hB0]
  · intro hsel
    constructor
    · rw [b0Error_update_C j hj]
      simp [hsel]
    · rw [markersOf_update_C j hj]
      split <;> simp [hsel]

/-- Witness for C2 at zero field with one selected label, on both paths. -/
theorem C2_zero_field_markers_witness :
    (update_plot_N i_c2).b0Error = true ∧ markersOf (update_plot_N i_c2) = []
    ∧ (update_plot_C j_c2).b0Error = true ∧ markersOf (update_plot_C j_c2) = [] := by
  have h := C2_zero_field_markers i_c2 j_c2 rfl rfl
  exact ⟨(h.1 rfl (by decide)).1, (h.1 rfl (by decide)).2.1,
    (h.2.2.1 rfl (by decide)).1, (h.2.2.1 rfl (by decide)).2.1⟩

/-- C9: the marker computations duplicated in the N15 and C13 paths are
equivalent: on identical gyromagnetic mapping, label selection, field,
unit index and axis-domain choice, non-aborted renders of both update
functions produce the same marker positions and the same zero-field error
condition. -/
theorem C9_marker_duplication (i : NInputs) (j : CInputs)
    (hg : i.gyro = j.gyro) (hsel : i.selGyro = j.selGyro) (hB : i.B0 = j.B0)
    (hu : i.unitId = j.unitId) (hd : i.freqDomain = j.freqDomain)
    (hi : (update_plot_N i).aborted = false) (hj : (update_plot_C j).aborted = false) :
    markersOf (update_plot_N i) = markersOf (update_plot_C j)
    ∧ (update_plot_N i).b0Error = (update_plot_C j).b0Error := by
  have hmp : marker_pos_N = marker_pos_C := rfl
  constructor
  · rw [markersOf_update_N i hi, markersOf_update_C j hj, hg, hsel, hB, hu, hd, hmp]
  · rw [b0Error_update_N i hi, b0Error_update_C j hj, hB, hsel]

/-- Witness for C9 on matching concrete inputs. -/
theorem C9_marker_duplication_witness :
    markersOf (update_plot_N i_c9) = markersOf (update_plot_C j_c9)
    ∧ (update_plot_N i_c9).b0Error = (update_plot_C j_c9).b0Error :=
  C9_marker_duplication i_c9 j_c9 rfl rfl rfl rfl rfl rfl rfl

/-- C3 as stated is false: in a C13 request finding families "A" (data
[1, 2], max 2) and then "B" (data [3, 4], max 4), the overlay is rescaled
against B's curve — the last found one — not against the first found
curve, which would give [0, 2] instead of the actual [0, 4]. -/
theorem C3_counterexample :
    expYsOf (update_plot_C j_c3) = some [0, 4]
    ∧ baseline_rescale [5, 7] (maxList c_rowA.data) = [0, 2]
    ∧ ([0, 4] : List ℚ) ≠ [0, 2] := by
  have hov : overlay_step j_c3.exptEnabled j_c3.exptFile (c_refMax (c_loop j_c3).2)
      = .curve ([(1, 5), (2, 7)].map Prod.fst)
          (baseline_rescale ([(1, 5), (2, 7)].map Prod.snd) (maxList [3, 4])) := by
    have h2 : c_refMax (c_loop j_c3).2 = some (maxList [3, 4]) := rfl
    rw [show j_c3.exptEnabled = true from rfl, h2]
    exact overlay_step_curve_eq j_c3.exptFile [(1, 5), (2, 7)] (maxList [3, 4])
      rfl (by decide)
  refine ⟨?_, ?_, by decide⟩
  · rw [expYsOf_update_C j_c3 _ _ hov]
    norm_num [baseline_rescale, minList, maxList, List.foldl, min_def, max_def]
  · norm_num [c_rowA, baseline_rescale, minList, maxList, List.foldl, min_def, max_def]

/-- C3 (amended): the overlay is rescaled against whatever the lookup
variable holds after the curve stage: for N15 the single found curve, and
for C13 the curve of the last selected family's lookup — the first found
family's curve only when a single family is found. -/
theorem C3_overlay_reference (i : NInputs) (j : CInputs) (dN dC : List ℚ)
    (rowsN rowsC : List (ℚ × ℚ))
    (hEN : i.exptEnabled = true) (hFN : i.exptFile = some (.ok rowsN))
    (hneN : rowsN ≠ []) (hlkN : n_lookup i = some dN)
    (hEC : j.exptEnabled = true) (hFC : j.exptFile = some (.ok rowsC))
    (hneC : rowsC ≠ []) (hlast : (c_loop j).2 = some (some dC)) :
    expYsOf (update_plot_N i) = some (baseline_rescale (rowsN.map Prod.snd) (maxList dN))
    ∧ expYsOf (update_plot_C j)
        = some (baseline_rescale (rowsC.map Prod.snd) (maxList dC)) := by
  constructor
  · have hov : overlay_step i.exptEnabled i.exptFile ((n_lookup i).map maxList)
        = .curve (rowsN.map Prod.fst) (baseline_rescale (rowsN.map Prod.snd) (maxList dN)) := by
      rw [hEN, hlkN]
      exact overlay_step_curve_eq i.exptFile rowsN (maxList dN) hFN hneN
    exact expYsOf_update_N i _ _ hov
  · have hov : overlay_step j.exptEnabled j.exptFile (c_refMax (c_loop j).2)
        = .curve (rowsC.map Prod.fst) (baseline_rescale (rowsC.map Prod.snd) (maxList dC)) := by
      rw [hEC, hlast]
      exact overlay_step_curve_eq j.exptFile rowsC (maxList dC) hFC hneC
    exact expYsOf_update_C j _ _ hov

/-- Witness for the amended C3 on concrete N15 and C13 requests. -/
theorem C3_overlay_reference_witness :
    expYsOf (update_plot_N i_c3)
      = some (baseline_rescale (([((1 : ℚ), (6 : ℚ)), (2, 8)]).map Prod.snd) (maxList (2 :: [])))
    ∧ expYsOf (update_plot_C j_c3)
      = some (baseline_rescale (([((1 : ℚ), (5 : ℚ)), (2, 7)]).map Prod.snd)
          (maxList [3, 4])) :=
  C3_overlay_reference i_c3 j_c3 (2 :: []) [3, 4] [(1, 6), (2, 8)] [(1, 5), (2, 7)]
    rfl rfl (by decide) (by decide) rfl rfl (by decide) rfl

/-- C5 as stated is false: with a malformed overlay file, the render
aborts — the markers that the same request would otherwise draw (one for
the selected label, since B0 = 5 ≠ 0) are not produced. -/
theorem C5_counterexample :
    (update_plot_N i_c5).aborted = true
    ∧ markersOf (update_plot_N i_c5) = []
    ∧ markersOf (update_plot_N i_c5b) ≠ [] := by
  refine ⟨rfl, rfl, by decide⟩

/-- C5 (amended): a malformed overlay file raises an uncaught exception
that aborts the remainder of the render on both paths: the simulated
curves drawn before the overlay block remain, but no marker is drawn, no
error box is shown, and the failure propagates to the caller. -/
theorem C5_overlay_abort (i : NInputs) (j : CInputs) (eN eC : DataFormatError)
    (hNE : i.exptEnabled = true) (hNF : i.exptFile = some (.error eN))
    (hCE : j.exptEnabled = true) (hCF : j.exptFile = some (.error eC)) :
    update_plot_N i = ⟨n_curve_items i, false, true⟩
    ∧ update_plot_C j = ⟨(c_loop j).1, false, true⟩ := by
  constructor
  · exact update_N_of_overlay_aborted i
      (by rw [hNE]; exact overlay_step_error _ eN _ hNF)
  · exact update_C_of_overlay_aborted j
      (by rw [hCE]; exact overlay_step_error _ eC _ hCF)

/-- Witness for the amended C5 on concrete malformed-file requests. -/
theorem C5_overlay_abort_witness :
    update_plot_N i_c5 = ⟨n_curve_items i_c5, false, true⟩
    ∧ update_plot_C j_c5 = ⟨(c_loop j_c5).1, false, true⟩ :=
  C5_overlay_abort i_c5 j_c5 .malformed .malformed rfl rfl rfl rfl

/-- C6: in a C13 request selecting families "A" and "B" where only "A" has
a matching row, each family is looked up independently and the render's
simulated-curve portion is exactly one real curve labeled "A" followed by
one no-data placeholder (emitted in B's loop iteration). -/
theorem C6_family_independence (j : CInputs) (rA : C13Row) (tA : List C13Row)
    (hsel : j.selFam = ["A", "B"])
    (hA : readWhereC j.table j.M "A" j.B0 j.ms = rA :: tA)
    (hB : readWhereC j.table j.M "B" j.B0 j.ms = []) :
    (c_loop j).1 = [.simCurve "A" (x_axis j.freqDomain j.unitId) rA.data, .noDataText]
    ∧ simsOf (update_plot_C j)
        = [.simCurve "A" (x_axis j.freqDomain j.unitId) rA.data, .noDataText] := by
  have e1 : c_step j ([], none) "A"
      = ([.simCurve "A" (x_axis j.freqDomain j.unitId) rA.data], some (some rA.data)) := by
    unfold c_step
    rw [hA]
    rfl
  have e2 : c_step j
        ([.simCurve "A" (x_axis j.freqDomain j.unitId) rA.data], some (some rA.data)) "B"
      = ([.simCurve "A" (x_axis j.freqDomain j.unitId) rA.data, .noDataText], some none) := by
    unfold c_step
    rw [hB]
    rfl
  have h1 : (c_loop j).1
      = [.simCurve "A" (x_axis j.freqDomain j.unitId) rA.data, .noDataText] := by
    unfold c_loop
    rw [hsel]
    simp only [List.foldl_cons, List.foldl_nil, e1, e2]
  exact ⟨h1, by rw [simsOf_update_C j, h1]⟩

/-- Witness for C6 on a concrete single-row C13 table. -/
theorem C6_family_independence_witness :
    (c_loop j_c6).1
      = [.simCurve "A" (x_axis j_c6.freqDomain j_c6.unitId) c_rowA.data, .noDataText] :=
  (C6_family_independence j_c6 c_rowA [] rfl rfl rfl).1

end DatasetGui
